import Mathlib

/-!
Verification development for the gas-tracker dashboard (src/src/App.js).

The domain logic embedded here:
* the fee normalizer inside `fetchGas` (App.js lines 62-106): tier arithmetic on
  wei amounts held as arbitrary-precision integers (ethers BigNumber, modelled
  as ℕ), followed by conversion to gwei display values rounded to 2 decimal
  places (`parseFloat(ethers.utils.formatUnits(x, "gwei")).toFixed(2)`,
  modelled as exact rational rounding);
* the cost simulator `calculateCost` inside the simulation effect
  (App.js lines 356-379);
* the Zustand store and its setters (App.js lines 7-27), plus the app-level
  events that invoke them, as a small transition system;
* the per-chain poller lifecycle of `useGasFetcher` (App.js lines 108-131),
  whose cleanup clears the interval timer and destroys the WebSocket provider.

JavaScript numbers are modelled as exact rationals (ℚ); `null`/`NaN` as
`Option`. BigNumber division truncates toward zero, which on the ℕ inputs
occurring here is exactly ℕ division.
-/

namespace GasTracker

/-- Rounding to 2 decimal places, the model of `parseFloat(s).toFixed(2)`
applied to an exact decimal string: round half up at the second decimal. -/
def round2 (q : ℚ) : ℚ := ((q * 100 + 1/2).floor : ℚ) / 100

/-- Rounding to 5 decimal places, the model of `parseFloat(s).toFixed(5)`. -/
def round5 (q : ℚ) : ℚ := ((q * 100000 + 1/2).floor : ℚ) / 100000

/-- Model of `parseFloat(ethers.utils.formatUnits(wei, "gwei")).toFixed(2)`:
divide a wei amount by 1e9 and round to 2 decimal places (App.js 89-93). -/
def toGwei2 (wei : ℕ) : ℚ := round2 ((wei : ℚ) / 1000000000)

/-- Model of `parseFloat(ethers.utils.formatEther(wei)).toFixed(5)`:
divide a wei amount by 1e18 and round to 5 decimal places (App.js 95). -/
def toEther5 (wei : ℕ) : ℚ := round5 ((wei : ℚ) / 1000000000000000000)

/-- The per-chain gas snapshot held in the store (App.js 8-10 and 88-96).
Display values are rationals; absent fields (`null`) are `none`. -/
structure GasData where
  fast : Option ℚ
  avg : Option ℚ
  slow : Option ℚ
  baseFee : Option ℚ
  priorityFee : Option ℚ
  timestamp : Option ℕ
  l1GasEstimate : Option ℚ
deriving Repr, DecidableEq

/-- App.js 69-76: `maxPriorityFeePerGas` comes from `getFeeData()`; if that
call throws, the fallback `ethers.utils.parseUnits("1.5", "gwei")`
= 1500000000 wei is substituted. `none` models the upstream source being
unavailable (the call throwing). -/
def resolvePriorityFee (upstream : Option ℕ) : ℕ :=
  match upstream with
  | some p => p
  | none => 1500000000

/-- App.js 78: `baseFeePerGas.add(maxPriorityFeePerGas.mul(2))`. -/
def fastGasWei (baseFeePerGas maxPriorityFeePerGas : ℕ) : ℕ :=
  baseFeePerGas + maxPriorityFeePerGas * 2

/-- App.js 79: `baseFeePerGas.add(maxPriorityFeePerGas)`. -/
def avgGasWei (baseFeePerGas maxPriorityFeePerGas : ℕ) : ℕ :=
  baseFeePerGas + maxPriorityFeePerGas

/-- App.js 80: `baseFeePerGas.add(maxPriorityFeePerGas.div(2))`; BigNumber
division truncates, which on ℕ is ℕ division. -/
def slowGasWei (baseFeePerGas maxPriorityFeePerGas : ℕ) : ℕ :=
  baseFeePerGas + maxPriorityFeePerGas / 2

/-- App.js 82-85: only the arbitrum chain gets the constant placeholder
`ethers.utils.parseUnits("0.00001", "ether")` = 10^13 wei. -/
def l1GasEstimateWei (chainName : String) : Option ℕ :=
  if chainName = "arbitrum" then some 10000000000000 else none

/-- App.js 78-96: the fee normalizer of `fetchGas`, from the raw base fee per
gas (wei) and the upstream priority fee (wei, `none` when `getFeeData()`
throws) to the `gasData` object written to the store. -/
def normalizeFees (chainName : String) (baseFeePerGas : ℕ)
    (upstreamPriorityFee : Option ℕ) (now : ℕ) : GasData :=
  let maxPriorityFeePerGas := resolvePriorityFee upstreamPriorityFee
  { fast := some (toGwei2 (fastGasWei baseFeePerGas maxPriorityFeePerGas))
    avg := some (toGwei2 (avgGasWei baseFeePerGas maxPriorityFeePerGas))
    slow := some (toGwei2 (slowGasWei baseFeePerGas maxPriorityFeePerGas))
    baseFee := some (toGwei2 baseFeePerGas)
    priorityFee := some (toGwei2 maxPriorityFeePerGas)
    timestamp := some now
    l1GasEstimate := (l1GasEstimateWei chainName).map toEther5 }

/-- App.js 14: the per-chain simulated USD costs. -/
structure SimulatedCosts where
  eth : Option ℚ
  polygon : Option ℚ
  arbitrum : Option ℚ
deriving Repr, DecidableEq

/-- App.js 100: one chart sample `{ time, value }`. -/
structure ChartPoint where
  time : ℚ
  value : ℚ
deriving Repr, DecidableEq

/-- The Zustand store state (App.js 7-16). -/
structure GasStoreState where
  ethGas : GasData
  polygonGas : GasData
  arbitrumGas : GasData
  ethUsdPrice : Option ℚ
  simulationMode : Bool
  transactionValue : ℚ
  simulatedCosts : SimulatedCosts
  chartData : List ChartPoint
  currentChartChain : String
deriving Repr, DecidableEq

/-- A gas snapshot with every field `null`, the initial per-chain value
(App.js 8-10). -/
def emptyGasData : GasData :=
  { fast := none, avg := none, slow := none, baseFee := none
    priorityFee := none, timestamp := none, l1GasEstimate := none }

/-- The initial store state (App.js 8-16). -/
def initialState : GasStoreState :=
  { ethGas := emptyGasData
    polygonGas := emptyGasData
    arbitrumGas := emptyGasData
    ethUsdPrice := none
    simulationMode := false
    transactionValue := 1/100
    simulatedCosts := { eth := none, polygon := none, arbitrum := none }
    chartData := []
    currentChartChain := "ethereum" }

/-- App.js 18: `setEthGas: (gas) => set({ ethGas: gas })`; Zustand `set`
merges the given one-field object into the state, replacing only that field. -/
def setEthGas (gas : GasData) (s : GasStoreState) : GasStoreState :=
  { s with ethGas := gas }

/-- App.js 19: `setPolygonGas: (gas) => set({ polygonGas: gas })`. -/
def setPolygonGas (gas : GasData) (s : GasStoreState) : GasStoreState :=
  { s with polygonGas := gas }

/-- App.js 20: `setArbitrumGas: (gas) => set({ arbitrumGas: gas })`. -/
def setArbitrumGas (gas : GasData) (s : GasStoreState) : GasStoreState :=
  { s with arbitrumGas := gas }

/-- App.js 21: `setEthUsdPrice: (price) => set({ ethUsdPrice: price })`. -/
def setEthUsdPrice (price : Option ℚ) (s : GasStoreState) : GasStoreState :=
  { s with ethUsdPrice := price }

/-- App.js 22: `toggleSimulationMode` negates `simulationMode`. -/
def toggleSimulationMode (s : GasStoreState) : GasStoreState :=
  { s with simulationMode := !s.simulationMode }

/-- App.js 23: `setTransactionValue: (value) => set({ transactionValue: value })`. -/
def setTransactionValue (value : ℚ) (s : GasStoreState) : GasStoreState :=
  { s with transactionValue := value }

/-- App.js 24: `setSimulatedCosts: (costs) => set({ simulatedCosts: costs })`. -/
def setSimulatedCosts (costs : SimulatedCosts) (s : GasStoreState) : GasStoreState :=
  { s with simulatedCosts := costs }

/-- App.js 25: `addChartData` appends one element at the end of `chartData`. -/
def addChartData (data : ChartPoint) (s : GasStoreState) : GasStoreState :=
  { s with chartData := s.chartData ++ [data] }

/-- App.js 26: `setCurrentChartChain: (chain) => set({ currentChartChain: chain })`. -/
def setCurrentChartChain (chain : String) (s : GasStoreState) : GasStoreState :=
  { s with currentChartChain := chain }

/-- App.js 360-371: `calculateCost(gasData, isArbitrum)` with the closed-over
`transactionValue` and `ethUsdPrice` made explicit. Returns `none` when the
average tier is absent; adds the L1 estimate only for arbitrum when present. -/
def calculateCost (gasData : GasData) (isArbitrum : Bool)
    (transactionValue ethUsdPrice : ℚ) : Option ℚ :=
  match gasData.avg with
  | none => none
  | some avgGwei =>
    let gasCostEth := avgGwei * 210000 / 1000000000
    let gasCostEth :=
      match isArbitrum, gasData.l1GasEstimate with
      | true, some l1 => gasCostEth + l1
      | _, _ => gasCostEth
    some (transactionValue * ethUsdPrice + gasCostEth * ethUsdPrice)

/-- The `gasCostEth` let-chain of App.js 363-367 in isolation: the native-asset
gas cost for a given average display price, with the L1 addend applied exactly
when the chain is arbitrum and the estimate is present. -/
def gasCostEthOf (avgGwei : ℚ) (l1GasEstimate : Option ℚ) (isArbitrum : Bool) : ℚ :=
  let gasCostEth := avgGwei * 210000 / 1000000000
  match isArbitrum, l1GasEstimate with
  | true, some l1 => gasCostEth + l1
  | _, _ => gasCostEth

/-- App.js 356-379: the simulation effect. It recomputes `simulatedCosts` only
when `simulationMode` is on and `ethUsdPrice` is non-null; otherwise the
stored costs are left untouched. -/
def simulationEffect (s : GasStoreState) : GasStoreState :=
  match s.simulationMode, s.ethUsdPrice with
  | true, some price =>
    setSimulatedCosts
      { eth := calculateCost s.ethGas false s.transactionValue price
        polygon := calculateCost s.polygonGas false s.transactionValue price
        arbitrum := calculateCost s.arbitrumGas true s.transactionValue price } s
  | _, _ => s

/-- App.js 426: `setTransactionValue(parseFloat(e.target.value) || 0)`.
`none` models `parseFloat` returning `NaN` on non-numeric text; `NaN || 0`
and `0 || 0` both evaluate to `0`. -/
def coerceTransactionValue (parsed : Option ℚ) : ℚ :=
  match parsed with
  | none => 0
  | some v => if v = 0 then 0 else v

/-- The three chains whose gas data the app polls (App.js 350-352). -/
inductive ChainTag where
  | eth
  | polygon
  | arbitrum
deriving Repr, DecidableEq

/-- The events through which App.js ever writes to the store: `fetchGas`
storing a gas snapshot (App.js 97), the price fetcher storing a computed
number (App.js 169), the UI toggles and inputs (App.js 411, 426, 447-459),
the chart append (App.js 100), and the simulation effect (App.js 373-377). -/
inductive AppEvent where
  | gasFetched (chain : ChainTag) (gas : GasData)
  | priceFetched (price : ℚ)
  | simulationToggled
  | transactionValueEntered (parsed : Option ℚ)
  | chartPointAdded (point : ChartPoint)
  | chartChainSelected (chain : String)
  | simulationRecomputed
deriving Repr, DecidableEq

/-- One app-level transition: dispatch the event through the store setters
exactly as the corresponding call site in App.js does. -/
def appStep (s : GasStoreState) : AppEvent → GasStoreState
  | .gasFetched .eth gas => setEthGas gas s
  | .gasFetched .polygon gas => setPolygonGas gas s
  | .gasFetched .arbitrum gas => setArbitrumGas gas s
  | .priceFetched price => setEthUsdPrice (some price) s
  | .simulationToggled => toggleSimulationMode s
  | .transactionValueEntered parsed =>
      setTransactionValue (coerceTransactionValue parsed) s
  | .chartPointAdded point => addChartData point s
  | .chartChainSelected chain => setCurrentChartChain chain s
  | .simulationRecomputed => simulationEffect s

/-- Store states reachable from the initial state through app events. -/
inductive Reachable : GasStoreState → Prop where
  | init : Reachable initialState
  | step {s : GasStoreState} (e : AppEvent) : Reachable s → Reachable (appStep s e)

/-- The resources and output of one `useGasFetcher` poller instance
(App.js 108-131): whether the interval timer is armed, whether the WebSocket
provider is connected, and the chain gas snapshot it writes. -/
structure PollerState where
  timerActive : Bool
  providerConnected : Bool
  quote : GasData
deriving Repr, DecidableEq

/-- Poller events: an interval tick delivering a fresh quote, and the effect
cleanup (App.js 121-127). -/
inductive PollerEvent where
  | tick (fresh : GasData)
  | teardown
deriving Repr, DecidableEq

/-- A tick runs `fetchGas` and writes the quote only while the interval timer
is armed (`setInterval`, App.js 119); the cleanup clears the timer
(`clearInterval`) and destroys the provider (App.js 122-126). -/
def pollerStep (s : PollerState) : PollerEvent → PollerState
  | .tick fresh => if s.timerActive then { s with quote := fresh } else s
  | .teardown => { s with timerActive := false, providerConnected := false }

/-- Run a poller through a list of events. -/
def pollerRun (s : PollerState) : List PollerEvent → PollerState
  | [] => s
  | e :: es => pollerRun (pollerStep s e) es

/-- The executable `Rat.floor` agrees with the `Int.floor` of the ordered
field structure on ℚ. -/
theorem ratFloor_eq_intFloor (q : ℚ) : q.floor = ⌊q⌋ := by
  rw [Rat.floor_def', Rat.floor_def]

/-- Rounding to 2 decimal places is monotone. -/
theorem round2_mono {q r : ℚ} (h : q ≤ r) : round2 q ≤ round2 r := by
  unfold round2
  rw [ratFloor_eq_intFloor, ratFloor_eq_intFloor]
  have hf : ⌊q * 100 + 1/2⌋ ≤ ⌊r * 100 + 1/2⌋ := Int.floor_le_floor (by linarith)
  have : ((⌊q * 100 + 1/2⌋ : ℤ) : ℚ) ≤ ((⌊r * 100 + 1/2⌋ : ℤ) : ℚ) := by
    exact_mod_cast hf
  linarith

/-- Rounding to 2 decimal places sends nonnegative inputs to nonnegative
outputs. -/
theorem round2_nonneg {q : ℚ} (h : 0 ≤ q) : 0 ≤ round2 q := by
  unfold round2
  rw [ratFloor_eq_intFloor]
  have hz : (0 : ℤ) ≤ ⌊q * 100 + 1/2⌋ := Int.le_floor.mpr (by push_cast; linarith)
  have : (0 : ℚ) ≤ ((⌊q * 100 + 1/2⌋ : ℤ) : ℚ) := by exact_mod_cast hz
  linarith

/-- Gwei display conversion is monotone in the wei amount. -/
theorem toGwei2_mono {a b : ℕ} (h : a ≤ b) : toGwei2 a ≤ toGwei2 b := by
  unfold toGwei2
  apply round2_mono
  have : (a : ℚ) ≤ (b : ℚ) := by exact_mod_cast h
  linarith

/-- Gwei display conversion of a wei amount is nonnegative. -/
theorem toGwei2_nonneg (a : ℕ) : 0 ≤ toGwei2 a := by
  unfold toGwei2
  apply round2_nonneg
  positivity

/-- Concrete evaluation: 31e9 wei displays as 31 gwei. -/
theorem toGwei2_31e9 : toGwei2 31000000000 = 31 := by
  norm_num [toGwei2, round2, ratFloor_eq_intFloor, Int.floor_eq_iff]

/-- Concrete evaluation: 32e9 wei displays as 32 gwei. -/
theorem toGwei2_32e9 : toGwei2 32000000000 = 32 := by
  norm_num [toGwei2, round2, ratFloor_eq_intFloor, Int.floor_eq_iff]

/-- Concrete evaluation: 34e9 wei displays as 34 gwei. -/
theorem toGwei2_34e9 : toGwei2 34000000000 = 34 := by
  norm_num [toGwei2, round2, ratFloor_eq_intFloor, Int.floor_eq_iff]

/-- Concrete evaluation: the fallback 1.5e9 wei displays as 1.5 gwei. -/
theorem toGwei2_fallback : toGwei2 1500000000 = 3/2 := by
  norm_num [toGwei2, round2, ratFloor_eq_intFloor, Int.floor_eq_iff]

/-- Concrete evaluation: the 10^13 wei placeholder displays as 0.00001 ether. -/
theorem toEther5_placeholder : toEther5 10000000000000 = 1/100000 := by
  norm_num [toEther5, round5, ratFloor_eq_intFloor, Int.floor_eq_iff]

/-- The simulation effect never changes the stored exchange rate. -/
theorem simulationEffect_ethUsdPrice (s : GasStoreState) :
    (simulationEffect s).ethUsdPrice = s.ethUsdPrice := by
  unfold simulationEffect
  rcases hm : s.simulationMode <;> rcases hp : s.ethUsdPrice <;>
    simp [hm, hp, setSimulatedCosts]

/-- When the exchange rate is absent the simulation effect is the identity. -/
theorem simulationEffect_of_price_none {s : GasStoreState}
    (h : s.ethUsdPrice = none) : simulationEffect s = s := by
  unfold simulationEffect
  rcases hm : s.simulationMode <;> simp [h]

/-- In every reachable store state, an absent exchange rate forces all three
simulated costs to be absent. -/
theorem reachable_price_none_costs_none {s : GasStoreState} (h : Reachable s) :
    s.ethUsdPrice = none →
      s.simulatedCosts = { eth := none, polygon := none, arbitrum := none } := by
  induction h with
  | init => intro _; rfl
  | @step s e _ ih =>
    cases e with
    | gasFetched c gas =>
      cases c <;>
        simpa [appStep, setEthGas, setPolygonGas, setArbitrumGas] using ih
    | priceFetched p => intro hp; simp [appStep, setEthUsdPrice] at hp
    | simulationToggled => simpa [appStep, toggleSimulationMode] using ih
    | transactionValueEntered parsed =>
      simpa [appStep, setTransactionValue] using ih
    | chartPointAdded point => simpa [appStep, addChartData] using ih
    | chartChainSelected chain => simpa [appStep, setCurrentChartChain] using ih
    | simulationRecomputed =>
      intro hp
      have hs : s.ethUsdPrice = none := by
        have := simulationEffect_ethUsdPrice s
        simp only [appStep] at hp
        rw [this] at hp
        exact hp
      have hid : simulationEffect s = s := simulationEffect_of_price_none hs
      simp only [appStep, hid]
      exact ih hs

/-- Once the interval timer is cleared, no later poller event rewrites the
quote or rearms the timer. -/
theorem pollerRun_frozen {s : PollerState} (h : s.timerActive = false) :
    ∀ evs : List PollerEvent,
      (pollerRun s evs).quote = s.quote ∧
      (pollerRun s evs).timerActive = false := by
  intro evs
  induction evs generalizing s with
  | nil => exact ⟨rfl, h⟩
  | cons e es ih =>
    cases e with
    | tick fresh =>
      have hstep : pollerStep s (.tick fresh) = s := by simp [pollerStep, h]
      simpa [pollerRun, hstep] using ih h
    | teardown =>
      have h1 : (pollerStep s .teardown).quote = s.quote := rfl
      have h2 : (pollerStep s .teardown).timerActive = false := rfl
      have := ih (s := pollerStep s .teardown) h2
      simpa [pollerRun, h1] using this

/-- Closed form of `calculateCost` when the average tier is present. -/
theorem calculateCost_some {g : GasData} {a : ℚ} (ha : g.avg = some a)
    (isArbitrum : Bool) (tv rate : ℚ) :
    calculateCost g isArbitrum tv rate
      = some (tv * rate + gasCostEthOf a g.l1GasEstimate isArbitrum * rate) := by
  unfold calculateCost gasCostEthOf
  rw [ha]

/-- Outside arbitrum the L1 estimate is ignored by the gas-cost computation. -/
theorem gasCostEthOf_false (a : ℚ) (l1 : Option ℚ) :
    gasCostEthOf a l1 false = a * 210000 / 1000000000 := by
  rcases l1 <;> rfl

/-- On arbitrum with a present estimate, the estimate is added on top. -/
theorem gasCostEthOf_true_some (a l1 : ℚ) :
    gasCostEthOf a (some l1) true = a * 210000 / 1000000000 + l1 := rfl

/-- On arbitrum with an absent estimate nothing is added. -/
theorem gasCostEthOf_true_none (a : ℚ) :
    gasCostEthOf a none true = a * 210000 / 1000000000 := rfl

/-- The native-asset gas cost is monotone in the average display price. -/
theorem gasCostEthOf_mono {a₁ a₂ : ℚ} (h : a₁ ≤ a₂) (l1 : Option ℚ)
    (isArbitrum : Bool) :
    gasCostEthOf a₁ l1 isArbitrum ≤ gasCostEthOf a₂ l1 isArbitrum := by
  rcases isArbitrum <;> rcases l1 <;>
    simp only [gasCostEthOf] <;> linarith

/-- The slow wei tier never exceeds the average wei tier. -/
theorem slowGasWei_le_avgGasWei (b p : ℕ) : slowGasWei b p ≤ avgGasWei b p := by
  unfold slowGasWei avgGasWei
  omega

/-- The average wei tier never exceeds the fast wei tier. -/
theorem avgGasWei_le_fastGasWei (b p : ℕ) : avgGasWei b p ≤ fastGasWei b p := by
  unfold avgGasWei fastGasWei
  omega

/-- Claim C1: for every chain, the fee normalizer computes the wei tiers
fast = base + priority * 2, average = base + priority and
slow = base + priority / 2 (with truncating division of the priority fee),
converts each of fast, average, slow, base and priority to display units by
dividing by 1e9 and rounding to 2 decimal places, and on
base = 30e9, priority = 2e9 it yields average = 32.00, fast = 34.00 and
slow = 31.00. -/
theorem feeNormalizer_tiers_and_example :
    (∀ (chainName : String) (b p now : ℕ),
      (normalizeFees chainName b (some p) now).fast
          = some (round2 (((b + p * 2 : ℕ) : ℚ) / 1000000000)) ∧
      (normalizeFees chainName b (some p) now).avg
          = some (round2 (((b + p : ℕ) : ℚ) / 1000000000)) ∧
      (normalizeFees chainName b (some p) now).slow
          = some (round2 (((b + p / 2 : ℕ) : ℚ) / 1000000000)) ∧
      (normalizeFees chainName b (some p) now).baseFee
          = some (round2 ((b : ℚ) / 1000000000)) ∧
      (normalizeFees chainName b (some p) now).priorityFee
          = some (round2 ((p : ℚ) / 1000000000))) ∧
    (normalizeFees "ethereum" 30000000000 (some 2000000000) 0).avg = some 32 ∧
    (normalizeFees "ethereum" 30000000000 (some 2000000000) 0).fast = some 34 ∧
    (normalizeFees "ethereum" 30000000000 (some 2000000000) 0).slow = some 31 := by
  refine ⟨fun chainName b p now => ⟨rfl, rfl, rfl, rfl, rfl⟩, ?_, ?_, ?_⟩
  · show some (toGwei2 (avgGasWei 30000000000 2000000000)) = some 32
    norm_num [avgGasWei, toGwei2_32e9]
  · show some (toGwei2 (fastGasWei 30000000000 2000000000)) = some 34
    norm_num [fastGasWei, toGwei2_34e9]
  · show some (toGwei2 (slowGasWei 30000000000 2000000000)) = some 31
    norm_num [slowGasWei, toGwei2_31e9]

/-- Claim C2: the cost simulator computes
gasCostInNativeAsset = averageGasPrice * 210000 / 1e9, adds the L1 settlement
estimate when the chain has the L1 component, returns
estimatedUsdCost = nominalAssetAmount * rate + gasCostInNativeAsset * rate,
and on averageGasPrice = 32, rate = 3000, amount = 0.01 yields 50.16. -/
theorem costSimulator_formula_and_example :
    (∀ (g : GasData) (a tv rate : ℚ), g.avg = some a →
      calculateCost g false tv rate
        = some (tv * rate + a * 210000 / 1000000000 * rate)) ∧
    (∀ (g : GasData) (a l1 tv rate : ℚ), g.avg = some a →
      g.l1GasEstimate = some l1 →
      calculateCost g true tv rate
        = some (tv * rate + (a * 210000 / 1000000000 + l1) * rate)) ∧
    calculateCost
        { fast := some 34, avg := some 32, slow := some 31, baseFee := some 30
          priorityFee := some 2, timestamp := some 0, l1GasEstimate := none }
        false (1/100) 3000 = some (1254/25) := by
  refine ⟨?_, ?_, ?_⟩
  · intro g a tv rate ha
    rw [calculateCost_some ha, gasCostEthOf_false]
  · intro g a l1 tv rate ha hl
    rw [calculateCost_some ha, hl, gasCostEthOf_true_some]
  · norm_num [calculateCost]

/-- Witness for C2 at avg = 32, amount = 0.01, rate = 3000. -/
theorem costSimulator_formula_and_example_witness :
    calculateCost
        { fast := none, avg := some 32, slow := none, baseFee := none
          priorityFee := none, timestamp := none, l1GasEstimate := none }
        false (1/100) 3000
      = some ((1/100) * 3000 + 32 * 210000 / 1000000000 * 3000) :=
  costSimulator_formula_and_example.1
    { fast := none, avg := some 32, slow := none, baseFee := none
      priorityFee := none, timestamp := none, l1GasEstimate := none }
    32 (1/100) 3000 rfl

/-- Claim C3: for all nonnegative base and priority inputs, the produced
FeeQuote has present display tiers satisfying fast ≥ average ≥ slow ≥ 0. -/
theorem feeQuote_tier_ordering :
    ∀ (chainName : String) (b : ℕ) (upstream : Option ℕ) (now : ℕ),
      ∃ f a sl,
        (normalizeFees chainName b upstream now).fast = some f ∧
        (normalizeFees chainName b upstream now).avg = some a ∧
        (normalizeFees chainName b upstream now).slow = some sl ∧
        0 ≤ sl ∧ sl ≤ a ∧ a ≤ f := by
  intro chainName b upstream now
  exact ⟨_, _, _, rfl, rfl, rfl, toGwei2_nonneg _,
    toGwei2_mono (slowGasWei_le_avgGasWei b _),
    toGwei2_mono (avgGasWei_le_fastGasWei b _)⟩

/-- Claim C4: the cost simulator yields an absent result whenever a required
input is unavailable: in every reachable store state an absent exchange rate
forces all simulated costs to be absent, and an absent average tier makes
`calculateCost` return `none` regardless of the other inputs. -/
theorem absent_inputs_absent_result :
    (∀ s : GasStoreState, Reachable s → s.ethUsdPrice = none →
      s.simulatedCosts = { eth := none, polygon := none, arbitrum := none }) ∧
    (∀ (g : GasData) (isArbitrum : Bool) (tv rate : ℚ),
      g.avg = none → calculateCost g isArbitrum tv rate = none) := by
  refine ⟨fun s hs => reachable_price_none_costs_none hs, ?_⟩
  intro g isArbitrum tv rate ha
  unfold calculateCost
  rw [ha]

/-- Witness for C4 at the initial store state and an all-null gas snapshot. -/
theorem absent_inputs_absent_result_witness :
    initialState.simulatedCosts
        = { eth := none, polygon := none, arbitrum := none } ∧
    calculateCost emptyGasData false 0 1 = none :=
  ⟨absent_inputs_absent_result.1 initialState Reachable.init rfl,
   absent_inputs_absent_result.2 emptyGasData false 0 1 rfl⟩

/-- Claim C5: the 1.5-gwei fallback priority fee is substituted exactly when
the upstream source is unavailable, feeds all tier computations of the
resulting quote, and the normalization still produces a full quote. -/
theorem fallbackPriorityFee_policy :
    (∀ (chainName : String) (b now : ℕ),
      normalizeFees chainName b none now
        = normalizeFees chainName b (some 1500000000) now) ∧
    (∀ p : ℕ, resolvePriorityFee (some p) = p) ∧
    resolvePriorityFee none = 1500000000 ∧
    toGwei2 1500000000 = 3/2 ∧
    (∀ (chainName : String) (b now : ℕ),
      (normalizeFees chainName b none now).priorityFee = some (3/2)) := by
  refine ⟨fun _ _ _ => rfl, fun _ => rfl, rfl, toGwei2_fallback, fun c b now => ?_⟩
  show some (toGwei2 1500000000) = some (3/2)
  rw [toGwei2_fallback]

/-- Claim C6: only the arbitrum chain carries the constant placeholder
l1SettlementEstimate 0.00001, independent of observed fees; it is absent for
every other chain; and including it shifts the simulated USD cost by exactly
0.00001 * exchangeRate. -/
theorem l1Settlement_placeholder_and_shift :
    l1GasEstimateWei "arbitrum" = some 10000000000000 ∧
    (∀ (b : ℕ) (upstream : Option ℕ) (now : ℕ),
      (normalizeFees "arbitrum" b upstream now).l1GasEstimate
        = some (1/100000)) ∧
    (∀ chainName : String, chainName ≠ "arbitrum" →
      ∀ (b : ℕ) (upstream : Option ℕ) (now : ℕ),
        (normalizeFees chainName b upstream now).l1GasEstimate = none) ∧
    (∀ (g : GasData) (a tv rate : ℚ),
      calculateCost { g with avg := some a, l1GasEstimate := some (1/100000) }
          true tv rate
        = (calculateCost { g with avg := some a, l1GasEstimate := none }
            true tv rate).map (fun cost => cost + 1/100000 * rate)) := by
  refine ⟨rfl, fun b up now => ?_, fun c hc b up now => ?_, fun g a tv rate => ?_⟩
  · show ((l1GasEstimateWei "arbitrum").map toEther5) = some (1/100000)
    simp [l1GasEstimateWei, toEther5_placeholder]
  · show ((l1GasEstimateWei c).map toEther5) = none
    simp [l1GasEstimateWei, hc]
  · rw [calculateCost_some rfl, calculateCost_some rfl,
      gasCostEthOf_true_some, gasCostEthOf_true_none, Option.map_some']
    congr 1
    ring

/-- Witness for C6: the two non-arbitrum chains carry no L1 estimate. -/
theorem l1Settlement_placeholder_and_shift_witness :
    (normalizeFees "ethereum" 30000000000 (some 2000000000) 0).l1GasEstimate
        = none ∧
    (normalizeFees "polygon" 30000000000 (some 2000000000) 0).l1GasEstimate
        = none :=
  ⟨l1Settlement_placeholder_and_shift.2.2.1 "ethereum" (by decide)
      30000000000 (some 2000000000) 0,
   l1Settlement_placeholder_and_shift.2.2.1 "polygon" (by decide)
      30000000000 (some 2000000000) 0⟩

/-- Claim C7: with a nonnegative exchange rate and all other inputs held
fixed, the simulated USD cost is monotonically non-decreasing in the nominal
asset amount and in the average gas price. -/
theorem costSimulator_monotone :
    (∀ (g : GasData) (isArbitrum : Bool) (tv₁ tv₂ rate c₁ c₂ : ℚ),
      0 ≤ rate → tv₁ ≤ tv₂ →
      calculateCost g isArbitrum tv₁ rate = some c₁ →
      calculateCost g isArbitrum tv₂ rate = some c₂ → c₁ ≤ c₂) ∧
    (∀ (g : GasData) (isArbitrum : Bool) (a₁ a₂ tv rate c₁ c₂ : ℚ),
      0 ≤ rate → a₁ ≤ a₂ →
      calculateCost { g with avg := some a₁ } isArbitrum tv rate = some c₁ →
      calculateCost { g with avg := some a₂ } isArbitrum tv rate = some c₂ →
      c₁ ≤ c₂) := by
  constructor
  · intro g isArbitrum tv₁ tv₂ rate c₁ c₂ hrate htv h₁ h₂
    rcases ha : g.avg with _ | a
    · rw [calculateCost, ha] at h₁
      cases h₁
    · rw [calculateCost_some ha] at h₁ h₂
      injection h₁ with h₁
      injection h₂ with h₂
      subst h₁
      subst h₂
      have := mul_le_mul_of_nonneg_right htv hrate
      linarith
  · intro g isArbitrum a₁ a₂ tv rate c₁ c₂ hrate ha h₁ h₂
    rw [calculateCost_some rfl] at h₁ h₂
    injection h₁ with h₁
    injection h₂ with h₂
    subst h₁
    subst h₂
    have := mul_le_mul_of_nonneg_right
      (gasCostEthOf_mono ha
        (GasData.l1GasEstimate { g with avg := some a₁ }) isArbitrum) hrate
    have hl :
        GasData.l1GasEstimate { g with avg := some a₁ }
          = GasData.l1GasEstimate { g with avg := some a₂ } := rfl
    rw [hl] at this
    linarith

/-- Witness for C7 at amount 0 versus 1, rate 1, avg = 32. -/
theorem costSimulator_monotone_witness :
    (0 : ℚ) * 1 + 32 * 210000 / 1000000000 * 1
      ≤ 1 * 1 + 32 * 210000 / 1000000000 * 1 :=
  costSimulator_monotone.1
    { fast := none, avg := some 32, slow := none, baseFee := none
      priorityFee := none, timestamp := none, l1GasEstimate := none }
    false 0 1 1
    (0 * 1 + 32 * 210000 / 1000000000 * 1)
    (1 * 1 + 32 * 210000 / 1000000000 * 1)
    zero_le_one zero_le_one rfl rfl

/-- Claim C8: a simulation amount whose text does not parse as a number is
stored as zero instead of being rejected, while numeric input is stored
unchanged. -/
theorem nonNumeric_amount_coerced_to_zero :
    coerceTransactionValue none = 0 ∧
    (∀ v : ℚ, coerceTransactionValue (some v) = v) ∧
    (∀ s : GasStoreState,
      (appStep s (.transactionValueEntered none)).transactionValue = 0) := by
  refine ⟨rfl, fun v => ?_, fun s => rfl⟩
  unfold coerceTransactionValue
  by_cases h : v = 0 <;> simp [h]

/-- Claim C9: tearing a poller down clears its interval timer, releases the
provider handle, and no subsequent event sequence can write to the quote. -/
theorem pollerTeardown_stops_writes :
    ∀ (s : PollerState) (evs : List PollerEvent),
      (pollerStep s .teardown).timerActive = false ∧
      (pollerStep s .teardown).providerConnected = false ∧
      (pollerRun (pollerStep s .teardown) evs).quote = s.quote := by
  intro s evs
  exact ⟨rfl, rfl, (pollerRun_frozen rfl evs).1⟩

/-- Claim C10: every store setter replaces exactly its own field and leaves
all other fields unchanged; toggleSimulationMode changes only simulationMode;
addChartData appends exactly one element at the end of chartData. -/
theorem store_setters_frame :
    (∀ (g : GasData) (s : GasStoreState),
      (setEthGas g s).ethGas = g ∧
      (setEthGas g s).polygonGas = s.polygonGas ∧
      (setEthGas g s).arbitrumGas = s.arbitrumGas ∧
      (setEthGas g s).ethUsdPrice = s.ethUsdPrice ∧
      (setEthGas g s).simulationMode = s.simulationMode ∧
      (setEthGas g s).transactionValue = s.transactionValue ∧
      (setEthGas g s).simulatedCosts = s.simulatedCosts ∧
      (setEthGas g s).chartData = s.chartData ∧
      (setEthGas g s).currentChartChain = s.currentChartChain) ∧
    (∀ (g : GasData) (s : GasStoreState),
      (setPolygonGas g s).polygonGas = g ∧
      (setPolygonGas g s).ethGas = s.ethGas ∧
      (setPolygonGas g s).arbitrumGas = s.arbitrumGas ∧
      (setPolygonGas g s).ethUsdPrice = s.ethUsdPrice ∧
      (setPolygonGas g s).simulationMode = s.simulationMode ∧
      (setPolygonGas g s).transactionValue = s.transactionValue ∧
      (setPolygonGas g s).simulatedCosts = s.simulatedCosts ∧
      (setPolygonGas g s).chartData = s.chartData ∧
      (setPolygonGas g s).currentChartChain = s.currentChartChain) ∧
    (∀ (g : GasData) (s : GasStoreState),
      (setArbitrumGas g s).arbitrumGas = g ∧
      (setArbitrumGas g s).ethGas = s.ethGas ∧
      (setArbitrumGas g s).polygonGas = s.polygonGas ∧
      (setArbitrumGas g s).ethUsdPrice = s.ethUsdPrice ∧
      (setArbitrumGas g s).simulationMode = s.simulationMode ∧
      (setArbitrumGas g s).transactionValue = s.transactionValue ∧
      (setArbitrumGas g s).simulatedCosts = s.simulatedCosts ∧
      (setArbitrumGas g s).chartData = s.chartData ∧
      (setArbitrumGas g s).currentChartChain = s.currentChartChain) ∧
    (∀ (p : Option ℚ) (s : GasStoreState),
      (setEthUsdPrice p s).ethUsdPrice = p ∧
      (setEthUsdPrice p s).ethGas = s.ethGas ∧
      (setEthUsdPrice p s).polygonGas = s.polygonGas ∧
      (setEthUsdPrice p s).arbitrumGas = s.arbitrumGas ∧
      (setEthUsdPrice p s).simulationMode = s.simulationMode ∧
      (setEthUsdPrice p s).transactionValue = s.transactionValue ∧
      (setEthUsdPrice p s).simulatedCosts = s.simulatedCosts ∧
      (setEthUsdPrice p s).chartData = s.chartData ∧
      (setEthUsdPrice p s).currentChartChain = s.currentChartChain) ∧
    (∀ (v : ℚ) (s : GasStoreState),
      (setTransactionValue v s).transactionValue = v ∧
      (setTransactionValue v s).ethGas = s.ethGas ∧
      (setTransactionValue v s).polygonGas = s.polygonGas ∧
      (setTransactionValue v s).arbitrumGas = s.arbitrumGas ∧
      (setTransactionValue v s).ethUsdPrice = s.ethUsdPrice ∧
      (setTransactionValue v s).simulationMode = s.simulationMode ∧
      (setTransactionValue v s).simulatedCosts = s.simulatedCosts ∧
      (setTransactionValue v s).chartData = s.chartData ∧
      (setTransactionValue v s).currentChartChain = s.currentChartChain) ∧
    (∀ (c : SimulatedCosts) (s : GasStoreState),
      (setSimulatedCosts c s).simulatedCosts = c ∧
      (setSimulatedCosts c s).ethGas = s.ethGas ∧
      (setSimulatedCosts c s).polygonGas = s.polygonGas ∧
      (setSimulatedCosts c s).arbitrumGas = s.arbitrumGas ∧
      (setSimulatedCosts c s).ethUsdPrice = s.ethUsdPrice ∧
      (setSimulatedCosts c s).simulationMode = s.simulationMode ∧
      (setSimulatedCosts c s).transactionValue = s.transactionValue ∧
      (setSimulatedCosts c s).chartData = s.chartData ∧
      (setSimulatedCosts c s).currentChartChain = s.currentChartChain) ∧
    (∀ (c : String) (s : GasStoreState),
      (setCurrentChartChain c s).currentChartChain = c ∧
      (setCurrentChartChain c s).ethGas = s.ethGas ∧
      (setCurrentChartChain c s).polygonGas = s.polygonGas ∧
      (setCurrentChartChain c s).arbitrumGas = s.arbitrumGas ∧
      (setCurrentChartChain c s).ethUsdPrice = s.ethUsdPrice ∧
      (setCurrentChartChain c s).simulationMode = s.simulationMode ∧
      (setCurrentChartChain c s).transactionValue = s.transactionValue ∧
      (setCurrentChartChain c s).simulatedCosts = s.simulatedCosts ∧
      (setCurrentChartChain c s).chartData = s.chartData) ∧
    (∀ s : GasStoreState,
      (toggleSimulationMode s).simulationMode = !s.simulationMode ∧
      (toggleSimulationMode s).ethGas = s.ethGas ∧
      (toggleSimulationMode s).polygonGas = s.polygonGas ∧
      (toggleSimulationMode s).arbitrumGas = s.arbitrumGas ∧
      (toggleSimulationMode s).ethUsdPrice = s.ethUsdPrice ∧
      (toggleSimulationMode s).transactionValue = s.transactionValue ∧
      (toggleSimulationMode s).simulatedCosts = s.simulatedCosts ∧
      (toggleSimulationMode s).chartData = s.chartData ∧
      (toggleSimulationMode s).currentChartChain = s.currentChartChain) ∧
    (∀ (d : ChartPoint) (s : GasStoreState),
      (addChartData d s).chartData = s.chartData ++ [d] ∧
      (addChartData d s).ethGas = s.ethGas ∧
      (addChartData d s).polygonGas = s.polygonGas ∧
      (addChartData d s).arbitrumGas = s.arbitrumGas ∧
      (addChartData d s).ethUsdPrice = s.ethUsdPrice ∧
      (addChartData d s).simulationMode = s.simulationMode ∧
      (addChartData d s).transactionValue = s.transactionValue ∧
      (addChartData d s).simulatedCosts = s.simulatedCosts ∧
      (addChartData d s).currentChartChain = s.currentChartChain) :=
  ⟨fun _ _ => ⟨rfl, rfl, rfl, rfl, rfl, rfl, rfl, rfl, rfl⟩,
   fun _ _ => ⟨rfl, rfl, rfl, rfl, rfl, rfl, rfl, rfl, rfl⟩,
   fun _ _ => ⟨rfl, rfl, rfl, rfl, rfl, rfl, rfl, rfl, rfl⟩,
   fun _ _ => ⟨rfl, rfl, rfl, rfl, rfl, rfl, rfl, rfl, rfl⟩,
   fun _ _ => ⟨rfl, rfl, rfl, rfl, rfl, rfl, rfl, rfl, rfl⟩,
   fun _ _ => ⟨rfl, rfl, rfl, rfl, rfl, rfl, rfl, rfl, rfl⟩,
   fun _ _ => ⟨rfl, rfl, rfl, rfl, rfl, rfl, rfl, rfl, rfl⟩,
   fun _ => ⟨rfl, rfl, rfl, rfl, rfl, rfl, rfl, rfl, rfl⟩,
   fun _ _ => ⟨rfl, rfl, rfl, rfl, rfl, rfl, rfl, rfl, rfl⟩⟩

end GasTracker
